import Mathlib

/-!
# Verification of the `ronin` example programs

Two programs are embedded here.

* `examples/sdl/src/hello.c` : the `main` function, an ordered chain of five
  acquisitions (SDL subsystem, window, renderer, image surface, texture) with
  an inlined teardown at every failure branch.  `Hello.main` maps the results
  the SDL library hands back (`Hello.Env`) to the trace of library calls the
  program performs and its exit status.
* `examples/qt/src/window.cpp` : the `Window` widget.  `Window.slotButtonClicked`
  is the slot as a pure step function on the two fields the slot touches.
-/

namespace Hello

/-! ## The library calls of `hello.c` -/

/-- Flag passed to `SDL_Init`. -/
inductive InitFlag where
  | SDL_INIT_VIDEO
  deriving DecidableEq, Repr

/-- Flag passed to `SDL_CreateWindow`. -/
inductive WindowFlag where
  | SDL_WINDOW_SHOWN
  deriving DecidableEq, Repr

/-- Flags passed to `SDL_CreateRenderer`; `a | b` in the source is the list `[a, b]`. -/
inductive RendererFlag where
  | SDL_RENDERER_ACCELERATED
  | SDL_RENDERER_PRESENTVSYNC
  deriving DecidableEq, Repr

/-- One library call made by `main`, with the arguments the source passes and,
for calls whose result the program reads, the value returned (`ret`).
Pointers to SDL objects are natural numbers and `0` is `NULL`.  A `char *` is
an `Option String`: `none` is `NULL`, `some s` points to the C string whose
bytes before the terminating NUL are the UTF-8 bytes of `s`.  `strcpy` and
`strcat` write the local buffer `path` only; they are modelled by the functions
of the same name below and leave no event of their own. -/
inductive Call where
  | SDL_Init (flags : List InitFlag) (ret : Int)
  | SDL_GetError (ret : String)
  | printf (out : String)
  | SDL_CreateWindow (title : String) (x y w h : Int) (flags : List WindowFlag) (ret : Nat)
  | SDL_CreateRenderer (win : Nat) (index : Int) (flags : List RendererFlag) (ret : Nat)
  | SDL_GetBasePath (ret : Option String)
  | SDL_free (mem : Option String)
  | SDL_LoadBMP (file : String) (ret : Nat)
  | SDL_CreateTextureFromSurface (ren bmp : Nat) (ret : Nat)
  | SDL_RenderClear (ren : Nat)
  | SDL_RenderCopy (ren tex : Nat) (srcrect dstrect : Nat)
  | SDL_RenderPresent (ren : Nat)
  | SDL_Delay (ms : Nat)
  | SDL_DestroyTexture (tex : Nat)
  | SDL_FreeSurface (bmp : Nat)
  | SDL_DestroyRenderer (ren : Nat)
  | SDL_DestroyWindow (win : Nat)
  | SDL_Quit
  deriving DecidableEq, Repr

/-- What the outside world answers during one run: the platform, and the value
each fallible library call returns.  `SDL_GetError` is asked with the calls made
so far, so the error text may differ from one failure branch to the other.
`SDL_GetBasePath` may return `NULL` (`none`) or a string of any length. -/
structure Env where
  win32 : Bool
  SDL_Init : Int
  SDL_CreateWindow : Nat
  SDL_CreateRenderer : Nat
  SDL_GetBasePath : Option String
  SDL_LoadBMP : Nat
  SDL_CreateTextureFromSurface : Nat
  SDL_GetError : List Call → String

/-- The global `PATH_SEP`, selected by `#ifdef _WIN32`. -/
def PATH_SEP (win32 : Bool) : String :=
  if win32 then "\\" else "/"

/-- The C function `strlen`: the number of bytes before the terminating NUL. -/
def strlen (s : String) : Nat :=
  s.utf8ByteSize

/-- The C function `strcpy` into a buffer of `cap` bytes: the new content of the
buffer, or `none` when the behaviour is undefined, which is when the source
pointer is `NULL` or the string with its terminating NUL does not fit. -/
def strcpy (cap : Nat) (src : Option String) : Option String :=
  match src with
  | none => none
  | some s => if strlen s + 1 ≤ cap then some s else none

/-- The C function `strcat` onto a buffer of `cap` bytes holding `dst`: the new
content of the buffer, or `none` when the behaviour is undefined, which is when
the result with its terminating NUL does not fit. -/
def strcat (cap : Nat) (dst src : String) : Option String :=
  if strlen dst + strlen src + 1 ≤ cap then some (dst ++ src) else none

/-- Result of a run of `main`: the library calls in program order and the
value returned from `main`. -/
structure Run where
  trace : List Call
  exit : Int
  deriving DecidableEq, Repr

/-- The body of one iteration of the rendering loop. -/
def renderFrame (ren tex : Nat) : List Call :=
  [ Call.SDL_RenderClear ren,
    Call.SDL_RenderCopy ren tex 0 0,
    Call.SDL_RenderPresent ren,
    Call.SDL_Delay 1000 ]

/-- The loop `for (int i = 0; i < 3; ++i) { ... }`, entered with the current
value of `i` and the trace so far. -/
def renderLoop (ren tex : Nat) (i : Nat) (t : List Call) : List Call :=
  if i < 3 then renderLoop ren tex (i + 1) (t ++ renderFrame ren tex) else t
termination_by 3 - i

/-- The function `main` of `hello.c`.  The result is `none` when the run reaches
undefined behaviour: `strcpy` from a `NULL` base path, or a write past the end
of `char path[4096]`. -/
def main (env : Env) : Option Run :=
  let t := [Call.SDL_Init [InitFlag.SDL_INIT_VIDEO] env.SDL_Init]
  if env.SDL_Init ≠ 0 then
    let e := env.SDL_GetError t
    let t := t ++ [Call.SDL_GetError e, Call.printf ("SDL_Init Error: " ++ e ++ "\n")]
    some { trace := t, exit := 1 }
  else
  let win := env.SDL_CreateWindow
  let t := t ++ [Call.SDL_CreateWindow "Hello World!" 100 100 500 150
                  [WindowFlag.SDL_WINDOW_SHOWN] win]
  if win = 0 then
    let e := env.SDL_GetError t
    let t := t ++ [Call.SDL_GetError e, Call.printf ("SDL_CreateWindow Error: " ++ e ++ "\n")]
    some { trace := t, exit := 1 }
  else
  let ren := env.SDL_CreateRenderer
  let t := t ++ [Call.SDL_CreateRenderer win (-1)
                  [RendererFlag.SDL_RENDERER_ACCELERATED,
                   RendererFlag.SDL_RENDERER_PRESENTVSYNC] ren]
  if ren = 0 then
    let t := t ++ [Call.SDL_DestroyWindow win]
    let e := env.SDL_GetError t
    let t := t ++ [Call.SDL_GetError e,
                   Call.printf ("SDL_CreateRenderer Error: " ++ e ++ "\n")]
    let t := t ++ [Call.SDL_Quit]
    some { trace := t, exit := 1 }
  else
  let base := env.SDL_GetBasePath
  let t := t ++ [Call.SDL_GetBasePath base]
  match strcpy 4096 base with
  | none => none
  | some path =>
  let t := t ++ [Call.SDL_free base]
  match strcat 4096 path (PATH_SEP env.win32) with
  | none => none
  | some path =>
  match strcat 4096 path "hello.bmp" with
  | none => none
  | some path =>
  let bmp := env.SDL_LoadBMP
  let t := t ++ [Call.SDL_LoadBMP path bmp]
  if bmp = 0 then
    let t := t ++ [Call.SDL_DestroyRenderer ren]
    let t := t ++ [Call.SDL_DestroyWindow win]
    let e := env.SDL_GetError t
    let t := t ++ [Call.SDL_GetError e, Call.printf ("SDL_LoadBMP Error: " ++ e ++ "\n")]
    let t := t ++ [Call.SDL_Quit]
    some { trace := t, exit := 1 }
  else
  let tex := env.SDL_CreateTextureFromSurface
  let t := t ++ [Call.SDL_CreateTextureFromSurface ren bmp tex]
  let t := t ++ [Call.SDL_FreeSurface bmp]
  if tex = 0 then
    let t := t ++ [Call.SDL_DestroyRenderer ren]
    let t := t ++ [Call.SDL_DestroyWindow win]
    let e := env.SDL_GetError t
    let t := t ++ [Call.SDL_GetError e,
                   Call.printf ("SDL_CreateTextureFromSurface Error: " ++ e ++ "\n")]
    let t := t ++ [Call.SDL_Quit]
    some { trace := t, exit := 1 }
  else
  let t := renderLoop ren tex 0 t
  let t := t ++ [Call.SDL_DestroyTexture tex]
  let t := t ++ [Call.SDL_DestroyRenderer ren]
  let t := t ++ [Call.SDL_DestroyWindow win]
  let t := t ++ [Call.SDL_Quit]
  some { trace := t, exit := 0 }

/-! ## Observations on runs -/

/-- The acquisition step (1 to 5) a call belongs to, if it is one of the five
acquisition primitives. -/
def Call.acqStep : Call → Option Nat
  | Call.SDL_Init _ _ => some 1
  | Call.SDL_CreateWindow _ _ _ _ _ _ _ => some 2
  | Call.SDL_CreateRenderer _ _ _ _ => some 3
  | Call.SDL_LoadBMP _ _ => some 4
  | Call.SDL_CreateTextureFromSurface _ _ _ => some 5
  | _ => none

/-- The step whose resource a call releases, if it is one of the five release
primitives. -/
def Call.relStep : Call → Option Nat
  | Call.SDL_Quit => some 1
  | Call.SDL_DestroyWindow _ => some 2
  | Call.SDL_DestroyRenderer _ => some 3
  | Call.SDL_FreeSurface _ => some 4
  | Call.SDL_DestroyTexture _ => some 5
  | _ => none

/-- The step a call has acquired: the call is an acquisition primitive and the
value it returned is the success value (`0` for `SDL_Init`, non-`NULL` for the
four handles). -/
def Call.acquired : Call → Option Nat
  | Call.SDL_Init _ ret => if ret = 0 then some 1 else none
  | Call.SDL_CreateWindow _ _ _ _ _ _ ret => if ret ≠ 0 then some 2 else none
  | Call.SDL_CreateRenderer _ _ _ ret => if ret ≠ 0 then some 3 else none
  | Call.SDL_LoadBMP _ ret => if ret ≠ 0 then some 4 else none
  | Call.SDL_CreateTextureFromSurface _ _ ret => if ret ≠ 0 then some 5 else none
  | _ => none

/-- Whether a call is one of the rendering calls or the delay of the loop body. -/
def Call.isRenderOrDelay : Call → Bool
  | Call.SDL_RenderClear _ => true
  | Call.SDL_RenderCopy _ _ _ _ => true
  | Call.SDL_RenderPresent _ => true
  | Call.SDL_Delay _ => true
  | _ => false

/-- The milliseconds a call asks `SDL_Delay` to wait (`0` for any other call). -/
def Call.delay : Call → Nat
  | Call.SDL_Delay ms => ms
  | _ => 0

/-- The release calls of a trace, in program order. -/
def releases (t : List Call) : List Call :=
  t.filter (fun c => c.relStep.isSome)

/-- The acquisition steps attempted in a trace, in program order. -/
def acquisitions (t : List Call) : List Nat :=
  t.filterMap Call.acqStep

/-- The steps whose resource was acquired in a trace, in program order. -/
def acquiredSteps (t : List Call) : List Nat :=
  t.filterMap Call.acquired

/-- How many times the release primitive of step `k` is called in a trace. -/
def releaseCount (t : List Call) (k : Nat) : Nat :=
  (t.filterMap Call.relStep).count k

/-- What the run wrote with `printf`, one entry per call. -/
def stdout (t : List Call) : List String :=
  t.filterMap (fun c => match c with
    | Call.printf out => some out
    | _ => none)

/-- The texts returned by `SDL_GetError` during the run. -/
def errorTexts (t : List Call) : List String :=
  t.filterMap (fun c => match c with
    | Call.SDL_GetError ret => some ret
    | _ => none)

/-- The part of a trace from its first release call on (empty if there is none). -/
def fromFirstRelease (t : List Call) : List Call :=
  t.dropWhile (fun c => c.relStep.isNone)

/-- The calls strictly between the first `SDL_FreeSurface` and the first
`SDL_DestroyTexture` that follows it. -/
def betweenSurfaceAndTexture (t : List Call) : List Call :=
  ((t.dropWhile (fun c => c.relStep ≠ some 4)).drop 1).takeWhile
    (fun c => c.relStep ≠ some 5)

/-- Total delay requested in a trace, in milliseconds. -/
def totalDelay (t : List Call) : Nat :=
  (t.map Call.delay).sum

/-- The first acquisition step the library fails, read off the answers in
`env`; `none` when all five succeed. -/
def firstFailure (env : Env) : Option Nat :=
  if env.SDL_Init ≠ 0 then some 1
  else if env.SDL_CreateWindow = 0 then some 2
  else if env.SDL_CreateRenderer = 0 then some 3
  else if env.SDL_LoadBMP = 0 then some 4
  else if env.SDL_CreateTextureFromSurface = 0 then some 5
  else none

/-- The release call of step `k` on the handle `env` gave for that step. -/
def releaseOf (env : Env) : Nat → Option Call
  | 1 => some Call.SDL_Quit
  | 2 => some (Call.SDL_DestroyWindow env.SDL_CreateWindow)
  | 3 => some (Call.SDL_DestroyRenderer env.SDL_CreateRenderer)
  | 4 => some (Call.SDL_FreeSurface env.SDL_LoadBMP)
  | 5 => some (Call.SDL_DestroyTexture env.SDL_CreateTextureFromSurface)
  | _ => none

/-- The steps `n, n-1, ..., 1`. -/
def stepsDown : Nat → List Nat
  | 0 => []
  | n + 1 => (n + 1) :: stepsDown n

/-- The unwind the specification asks for when step `k` fails: the release
calls of steps `k-1, k-2, ..., 1`, in that order. -/
def unwindBelow (env : Env) (k : Nat) : List Call :=
  (stepsDown (k - 1)).filterMap (releaseOf env)

/-- The text that opens the diagnostic of step `k`. -/
def diagnosticOf : Nat → String
  | 1 => "SDL_Init Error: "
  | 2 => "SDL_CreateWindow Error: "
  | 3 => "SDL_CreateRenderer Error: "
  | 4 => "SDL_LoadBMP Error: "
  | 5 => "SDL_CreateTextureFromSurface Error: "
  | _ => ""

/-! ## Handle lifetimes -/

/-- The four kinds of handle `main` holds. -/
inductive Kind where
  | window
  | renderer
  | surface
  | texture
  deriving DecidableEq, Repr

/-- A handle: a pointer value together with the kind of object it points to. -/
structure Handle where
  kind : Kind
  ptr : Nat
  deriving DecidableEq, Repr

/-- The handles a call receives as arguments. -/
def Call.uses : Call → List Handle
  | Call.SDL_CreateRenderer win _ _ _ => [⟨Kind.window, win⟩]
  | Call.SDL_CreateTextureFromSurface ren bmp _ => [⟨Kind.renderer, ren⟩, ⟨Kind.surface, bmp⟩]
  | Call.SDL_RenderClear ren => [⟨Kind.renderer, ren⟩]
  | Call.SDL_RenderCopy ren tex _ _ => [⟨Kind.renderer, ren⟩, ⟨Kind.texture, tex⟩]
  | Call.SDL_RenderPresent ren => [⟨Kind.renderer, ren⟩]
  | Call.SDL_DestroyTexture tex => [⟨Kind.texture, tex⟩]
  | Call.SDL_FreeSurface bmp => [⟨Kind.surface, bmp⟩]
  | Call.SDL_DestroyRenderer ren => [⟨Kind.renderer, ren⟩]
  | Call.SDL_DestroyWindow win => [⟨Kind.window, win⟩]
  | _ => []

/-- The handle a call hands out: its acquisition step succeeded and returned it. -/
def Call.yields : Call → Option Handle
  | Call.SDL_CreateWindow _ _ _ _ _ _ ret => if ret ≠ 0 then some ⟨Kind.window, ret⟩ else none
  | Call.SDL_CreateRenderer _ _ _ ret => if ret ≠ 0 then some ⟨Kind.renderer, ret⟩ else none
  | Call.SDL_LoadBMP _ ret => if ret ≠ 0 then some ⟨Kind.surface, ret⟩ else none
  | Call.SDL_CreateTextureFromSurface _ _ ret =>
      if ret ≠ 0 then some ⟨Kind.texture, ret⟩ else none
  | _ => none

/-- The handle a call releases. -/
def Call.frees : Call → Option Handle
  | Call.SDL_DestroyTexture tex => some ⟨Kind.texture, tex⟩
  | Call.SDL_FreeSurface bmp => some ⟨Kind.surface, bmp⟩
  | Call.SDL_DestroyRenderer ren => some ⟨Kind.renderer, ren⟩
  | Call.SDL_DestroyWindow win => some ⟨Kind.window, win⟩
  | _ => none

/-- Every handle passed to a call of the trace was handed out by an earlier
call and has not been released by any earlier call. -/
def HandlesLive (t : List Call) : Prop :=
  ∀ (before : List Call) (c : Call) (after : List Call), t = before ++ c :: after →
    ∀ h ∈ c.uses,
      (∃ a ∈ before, a.yields = some h) ∧ (∀ r ∈ before, r.frees ≠ some h)

/-- Monitor for `HandlesLive`: walks the trace with the handles handed out so
far and the handles released so far. -/
def liveCheck (yielded freed : List Handle) : List Call → Bool
  | [] => true
  | c :: rest =>
      c.uses.all (fun h => decide (h ∈ yielded) && decide (h ∉ freed)) &&
        liveCheck (yielded ++ c.yields.toList) (freed ++ c.frees.toList) rest

/-! ## The path buffer -/

/-- The run gets past `SDL_CreateRenderer` and so reaches the code that fills
`path`. -/
def reachesPath (env : Env) : Prop :=
  env.SDL_Init = 0 ∧ env.SDL_CreateWindow ≠ 0 ∧ env.SDL_CreateRenderer ≠ 0

/-- The base path is not `NULL` and, with the separator, the file name and the
terminating NUL, fits the 4096 bytes of `path`. -/
def PathFits (env : Env) : Prop :=
  ∃ b, env.SDL_GetBasePath = some b ∧
    strlen b + strlen (PATH_SEP env.win32) + strlen "hello.bmp" + 1 ≤ 4096

/-- The condition for the run of `main` to be defined: if it reaches the code
that fills `path`, the base path fits. -/
def PathOk (env : Env) : Prop :=
  reachesPath env → PathFits env

/-- The calls every run makes up to and including `SDL_LoadBMP`, once it is past
`SDL_CreateRenderer` with base path `b`. -/
def upToLoadBMP (env : Env) (b : String) (bmp : Nat) : List Call :=
  [ Call.SDL_Init [InitFlag.SDL_INIT_VIDEO] 0,
    Call.SDL_CreateWindow "Hello World!" 100 100 500 150 [WindowFlag.SDL_WINDOW_SHOWN]
      env.SDL_CreateWindow,
    Call.SDL_CreateRenderer env.SDL_CreateWindow (-1)
      [RendererFlag.SDL_RENDERER_ACCELERATED, RendererFlag.SDL_RENDERER_PRESENTVSYNC]
      env.SDL_CreateRenderer,
    Call.SDL_GetBasePath (some b),
    Call.SDL_free (some b),
    Call.SDL_LoadBMP (b ++ PATH_SEP env.win32 ++ "hello.bmp") bmp ]

/-! ## Sample environments -/

/-- An environment in which every step succeeds. -/
def envAllOk : Env :=
  { win32 := false, SDL_Init := 0, SDL_CreateWindow := 11, SDL_CreateRenderer := 12,
    SDL_GetBasePath := some "/opt/hello", SDL_LoadBMP := 13,
    SDL_CreateTextureFromSurface := 14, SDL_GetError := fun _ => "" }

/-- An environment whose first failure is step `k` (for `k` from 1 to 5), with
error text `oops`. -/
def envFailAt (k : Nat) : Env :=
  { win32 := false,
    SDL_Init := if k = 1 then -1 else 0,
    SDL_CreateWindow := if k = 2 then 0 else 11,
    SDL_CreateRenderer := if k = 3 then 0 else 12,
    SDL_GetBasePath := some "/opt/hello",
    SDL_LoadBMP := if k = 4 then 0 else 13,
    SDL_CreateTextureFromSurface := if k = 5 then 0 else 14,
    SDL_GetError := fun _ => "oops" }

/-- An environment in which every step succeeds but `SDL_GetBasePath` returns
`NULL`. -/
def envNullBase : Env :=
  { envAllOk with SDL_GetBasePath := none }

/-- An environment in which every step succeeds but the base path is 4086 bytes
long, one more than fits. -/
def envLongBase : Env :=
  { envAllOk with SDL_GetBasePath := some (String.mk (List.replicate 4086 (Char.ofNat 97))) }

/-! ## The runs of `main`, branch by branch -/

theorem renderLoop_zero (ren tex : Nat) (t : List Call) :
    renderLoop ren tex 0 t =
      t ++ (renderFrame ren tex ++ (renderFrame ren tex ++ renderFrame ren tex)) := by
  rw [renderLoop, if_pos (by decide), renderLoop, if_pos (by decide), renderLoop,
    if_pos (by decide), renderLoop, if_neg (by decide)]
  simp [List.append_assoc]

theorem strlen_append (a b : String) : strlen (a ++ b) = strlen a + strlen b := by
  cases a with
  | mk l1 =>
    cases b with
    | mk l2 =>
      show String.utf8ByteSize (String.mk (l1 ++ l2)) = _
      simp [strlen, String.utf8ByteSize_mk, String.utf8Len_append]

theorem strlen_PATH_SEP (win32 : Bool) : strlen (PATH_SEP win32) = 1 := by
  cases win32 <;> decide

theorem strlen_file : strlen "hello.bmp" = 9 := by decide

theorem strlen_replicate (n : Nat) :
    strlen (String.mk (List.replicate n (Char.ofNat 97))) = n := by
  unfold strlen
  rw [String.utf8ByteSize_mk]
  induction n with
  | zero => rfl
  | succ m ih =>
      rw [List.replicate_succ, String.utf8Len_cons, ih]
      have h1 : (Char.ofNat 97).utf8Size = 1 := by decide
      rw [h1]

/-- The base path fits exactly when it is not `NULL` and at most 4085 bytes long. -/
theorem PathFits_iff (env : Env) :
    PathFits env ↔ ∃ b, env.SDL_GetBasePath = some b ∧ strlen b ≤ 4085 := by
  unfold PathFits
  simp only [strlen_PATH_SEP, strlen_file]
  constructor
  · rintro ⟨b, hb, h⟩
    exact ⟨b, hb, by omega⟩
  · rintro ⟨b, hb, h⟩
    exact ⟨b, hb, by omega⟩

theorem main_init_failed (env : Env) (h1 : env.SDL_Init ≠ 0) :
    main env = some
      { trace :=
          [ Call.SDL_Init [InitFlag.SDL_INIT_VIDEO] env.SDL_Init,
            Call.SDL_GetError
              (env.SDL_GetError [Call.SDL_Init [InitFlag.SDL_INIT_VIDEO] env.SDL_Init]),
            Call.printf ("SDL_Init Error: " ++
              env.SDL_GetError [Call.SDL_Init [InitFlag.SDL_INIT_VIDEO] env.SDL_Init] ++ "\n") ],
        exit := 1 } := by
  simp [main, h1]

theorem main_window_failed (env : Env) (h1 : env.SDL_Init = 0) (h2 : env.SDL_CreateWindow = 0) :
    ∃ e, main env = some
      { trace :=
          [ Call.SDL_Init [InitFlag.SDL_INIT_VIDEO] 0,
            Call.SDL_CreateWindow "Hello World!" 100 100 500 150 [WindowFlag.SDL_WINDOW_SHOWN] 0,
            Call.SDL_GetError e,
            Call.printf ("SDL_CreateWindow Error: " ++ e ++ "\n") ],
        exit := 1 } := by
  simp [main, h1, h2]

theorem main_renderer_failed (env : Env) (h1 : env.SDL_Init = 0) (h2 : env.SDL_CreateWindow ≠ 0)
    (h3 : env.SDL_CreateRenderer = 0) :
    ∃ e, main env = some
      { trace :=
          [ Call.SDL_Init [InitFlag.SDL_INIT_VIDEO] 0,
            Call.SDL_CreateWindow "Hello World!" 100 100 500 150 [WindowFlag.SDL_WINDOW_SHOWN]
              env.SDL_CreateWindow,
            Call.SDL_CreateRenderer env.SDL_CreateWindow (-1)
              [RendererFlag.SDL_RENDERER_ACCELERATED, RendererFlag.SDL_RENDERER_PRESENTVSYNC] 0,
            Call.SDL_DestroyWindow env.SDL_CreateWindow,
            Call.SDL_GetError e,
            Call.printf ("SDL_CreateRenderer Error: " ++ e ++ "\n"),
            Call.SDL_Quit ],
        exit := 1 } := by
  simp [main, h1, h2, h3]

theorem main_bitmap_failed (env : Env) (h1 : env.SDL_Init = 0) (h2 : env.SDL_CreateWindow ≠ 0)
    (h3 : env.SDL_CreateRenderer ≠ 0) (h4 : env.SDL_LoadBMP = 0) (b : String)
    (hb : env.SDL_GetBasePath = some b)
    (hfit : strlen b + strlen (PATH_SEP env.win32) + strlen "hello.bmp" + 1 ≤ 4096) :
    ∃ e, main env = some
      { trace := upToLoadBMP env b 0 ++
          [ Call.SDL_DestroyRenderer env.SDL_CreateRenderer,
            Call.SDL_DestroyWindow env.SDL_CreateWindow,
            Call.SDL_GetError e,
            Call.printf ("SDL_LoadBMP Error: " ++ e ++ "\n"),
            Call.SDL_Quit ],
        exit := 1 } := by
  have c1 : strlen b + 1 ≤ 4096 := by omega
  have c2 : strlen b + strlen (PATH_SEP env.win32) + 1 ≤ 4096 := by omega
  simp [main, h1, h2, h3, h4, hb, strcpy, strcat, strlen_append, c1, c2, hfit, upToLoadBMP]

theorem main_texture_failed (env : Env) (h1 : env.SDL_Init = 0) (h2 : env.SDL_CreateWindow ≠ 0)
    (h3 : env.SDL_CreateRenderer ≠ 0) (h4 : env.SDL_LoadBMP ≠ 0)
    (h5 : env.SDL_CreateTextureFromSurface = 0) (b : String)
    (hb : env.SDL_GetBasePath = some b)
    (hfit : strlen b + strlen (PATH_SEP env.win32) + strlen "hello.bmp" + 1 ≤ 4096) :
    ∃ e, main env = some
      { trace := upToLoadBMP env b env.SDL_LoadBMP ++
          [ Call.SDL_CreateTextureFromSurface env.SDL_CreateRenderer env.SDL_LoadBMP 0,
            Call.SDL_FreeSurface env.SDL_LoadBMP,
            Call.SDL_DestroyRenderer env.SDL_CreateRenderer,
            Call.SDL_DestroyWindow env.SDL_CreateWindow,
            Call.SDL_GetError e,
            Call.printf ("SDL_CreateTextureFromSurface Error: " ++ e ++ "\n"),
            Call.SDL_Quit ],
        exit := 1 } := by
  have c1 : strlen b + 1 ≤ 4096 := by omega
  have c2 : strlen b + strlen (PATH_SEP env.win32) + 1 ≤ 4096 := by omega
  simp [main, h1, h2, h3, h4, h5, hb, strcpy, strcat, strlen_append, c1, c2, hfit, upToLoadBMP]

theorem main_all_succeeded (env : Env) (h1 : env.SDL_Init = 0) (h2 : env.SDL_CreateWindow ≠ 0)
    (h3 : env.SDL_CreateRenderer ≠ 0) (h4 : env.SDL_LoadBMP ≠ 0)
    (h5 : env.SDL_CreateTextureFromSurface ≠ 0) (b : String)
    (hb : env.SDL_GetBasePath = some b)
    (hfit : strlen b + strlen (PATH_SEP env.win32) + strlen "hello.bmp" + 1 ≤ 4096) :
    main env = some
      { trace := upToLoadBMP env b env.SDL_LoadBMP ++
          [ Call.SDL_CreateTextureFromSurface env.SDL_CreateRenderer env.SDL_LoadBMP
              env.SDL_CreateTextureFromSurface,
            Call.SDL_FreeSurface env.SDL_LoadBMP ] ++
          (renderFrame env.SDL_CreateRenderer env.SDL_CreateTextureFromSurface ++
            (renderFrame env.SDL_CreateRenderer env.SDL_CreateTextureFromSurface ++
              renderFrame env.SDL_CreateRenderer env.SDL_CreateTextureFromSurface)) ++
          [ Call.SDL_DestroyTexture env.SDL_CreateTextureFromSurface,
            Call.SDL_DestroyRenderer env.SDL_CreateRenderer,
            Call.SDL_DestroyWindow env.SDL_CreateWindow,
            Call.SDL_Quit ],
        exit := 0 } := by
  have c1 : strlen b + 1 ≤ 4096 := by omega
  have c2 : strlen b + strlen (PATH_SEP env.win32) + 1 ≤ 4096 := by omega
  simp [main, h1, h2, h3, h4, h5, hb, strcpy, strcat, strlen_append, c1, c2, hfit, upToLoadBMP,
    renderLoop_zero]

/-- A run that reaches the path code with a base path that is `NULL` or does
not fit has no defined result. -/
theorem main_undefined (env : Env) (hr : reachesPath env) (hn : ¬ PathFits env) :
    main env = none := by
  obtain ⟨h1, h2, h3⟩ := hr
  cases hb : env.SDL_GetBasePath with
  | none => simp [main, h1, h2, h3, hb, strcpy]
  | some b =>
      have hbig : ¬ (strlen b + strlen (PATH_SEP env.win32) + strlen "hello.bmp" + 1 ≤ 4096) :=
        fun h => hn ⟨b, hb, h⟩
      simp only [main, h1, h2, h3, hb, strcpy, strcat, ne_eq, not_true_eq_false, if_false,
        not_false_eq_true, if_true]
      by_cases c1 : strlen b + 1 ≤ 4096
      · by_cases c2 : strlen b + strlen (PATH_SEP env.win32) + 1 ≤ 4096
        · simp [c1, c2, strlen_append, hbig]
        · simp [c1, c2]
      · simp [c1]

/-- The six ways a run can go, each with the value of `firstFailure`. -/
theorem firstFailure_cases (env : Env) :
    (env.SDL_Init ≠ 0 ∧ firstFailure env = some 1) ∨
    (env.SDL_Init = 0 ∧ env.SDL_CreateWindow = 0 ∧ firstFailure env = some 2) ∨
    (env.SDL_Init = 0 ∧ env.SDL_CreateWindow ≠ 0 ∧ env.SDL_CreateRenderer = 0 ∧
      firstFailure env = some 3) ∨
    (env.SDL_Init = 0 ∧ env.SDL_CreateWindow ≠ 0 ∧ env.SDL_CreateRenderer ≠ 0 ∧
      env.SDL_LoadBMP = 0 ∧ firstFailure env = some 4) ∨
    (env.SDL_Init = 0 ∧ env.SDL_CreateWindow ≠ 0 ∧ env.SDL_CreateRenderer ≠ 0 ∧
      env.SDL_LoadBMP ≠ 0 ∧ env.SDL_CreateTextureFromSurface = 0 ∧ firstFailure env = some 5) ∨
    (env.SDL_Init = 0 ∧ env.SDL_CreateWindow ≠ 0 ∧ env.SDL_CreateRenderer ≠ 0 ∧
      env.SDL_LoadBMP ≠ 0 ∧ env.SDL_CreateTextureFromSurface ≠ 0 ∧ firstFailure env = none) := by
  unfold firstFailure
  by_cases h1 : env.SDL_Init = 0 <;> by_cases h2 : env.SDL_CreateWindow = 0 <;>
    by_cases h3 : env.SDL_CreateRenderer = 0 <;> by_cases h4 : env.SDL_LoadBMP = 0 <;>
    by_cases h5 : env.SDL_CreateTextureFromSurface = 0 <;> simp [h1, h2, h3, h4, h5]

/-- The run of `main` has a defined result exactly when `PathOk` holds. -/
theorem main_isSome_iff (env : Env) : (main env).isSome = true ↔ PathOk env := by
  constructor
  · intro hs hr
    by_contra hn
    rw [main_undefined env hr hn] at hs
    simp at hs
  · intro hok
    rcases firstFailure_cases env with ⟨h1, _⟩ | ⟨h1, h2, _⟩ | ⟨h1, h2, h3, _⟩ |
      ⟨h1, h2, h3, h4, _⟩ | ⟨h1, h2, h3, h4, h5, _⟩ | ⟨h1, h2, h3, h4, h5, _⟩
    · rw [main_init_failed env h1]; rfl
    · obtain ⟨e, he⟩ := main_window_failed env h1 h2
      rw [he]; rfl
    · obtain ⟨e, he⟩ := main_renderer_failed env h1 h2 h3
      rw [he]; rfl
    · obtain ⟨b, hb, hfit⟩ := hok ⟨h1, h2, h3⟩
      obtain ⟨e, he⟩ := main_bitmap_failed env h1 h2 h3 h4 b hb hfit
      rw [he]; rfl
    · obtain ⟨b, hb, hfit⟩ := hok ⟨h1, h2, h3⟩
      obtain ⟨e, he⟩ := main_texture_failed env h1 h2 h3 h4 h5 b hb hfit
      rw [he]; rfl
    · obtain ⟨b, hb, hfit⟩ := hok ⟨h1, h2, h3⟩
      rw [main_all_succeeded env h1 h2 h3 h4 h5 b hb hfit]; rfl

/-- With a `NULL` base path, and with a base path of 4086 bytes, a run in which
every step would succeed has no defined result; the sample runs are defined. -/
theorem main_path_samples :
    main envNullBase = none ∧ main envLongBase = none ∧
    PathOk envAllOk ∧ (∀ k, PathOk (envFailAt k)) := by
  refine ⟨?_, ?_, ?_, ?_⟩
  · apply main_undefined
    · exact ⟨by decide, by decide, by decide⟩
    · rintro ⟨b, hb, _⟩
      simp [envNullBase] at hb
  · apply main_undefined
    · exact ⟨by decide, by decide, by decide⟩
    · rw [PathFits_iff]
      rintro ⟨b, hb, hlen⟩
      simp only [envLongBase, Option.some.injEq] at hb
      subst hb
      rw [strlen_replicate] at hlen
      omega
  · intro _
    exact ⟨"/opt/hello", rfl, by decide⟩
  · intro k _
    exact ⟨"/opt/hello", rfl, by rw [strlen_PATH_SEP, strlen_file]; decide⟩

/-! ## Soundness of the lifetime monitor -/

theorem liveCheck_sound (t : List Call) :
    ∀ (yielded freed : List Handle), liveCheck yielded freed t = true →
      ∀ (before : List Call) (c : Call) (after : List Call), t = before ++ c :: after →
        ∀ h ∈ c.uses,
          h ∈ yielded ++ before.filterMap Call.yields ∧
            h ∉ freed ++ before.filterMap Call.frees := by
  induction t with
  | nil =>
      intro yielded freed _ before c after ht
      simp at ht
  | cons d rest ih =>
      intro yielded freed hchk before c after ht h hh
      simp only [liveCheck, Bool.and_eq_true, List.all_eq_true, decide_eq_true_eq] at hchk
      cases before with
      | nil =>
          simp only [List.nil_append, List.cons.injEq] at ht
          obtain ⟨hd, _⟩ := ht
          subst hd
          simpa using hchk.1 h hh
      | cons b before1 =>
          simp only [List.cons_append, List.cons.injEq] at ht
          obtain ⟨hd, hrest⟩ := ht
          subst hd
          have key := ih _ _ hchk.2 before1 c after hrest h hh
          cases hy : Call.yields d <;> cases hf : Call.frees d <;>
            simpa [List.filterMap_cons, hy, hf, List.append_assoc] using key

theorem HandlesLive_of_liveCheck (t : List Call) (hchk : liveCheck [] [] t = true) :
    HandlesLive t := by
  intro before c after ht h hh
  have key := liveCheck_sound t [] [] hchk before c after ht h hh
  simp only [List.nil_append, List.mem_filterMap] at key
  refine ⟨key.1, ?_⟩
  intro r hr hfr
  exact key.2 ⟨r, hr, hfr⟩

/-! ## The claims about `main` -/

/-- C1, evaluated where it fails: when `SDL_Init` succeeds and `SDL_CreateWindow`
returns `NULL`, step 2 is the first failure, the unwind asked for is the single
call `SDL_Quit`, and the run of `main` contains no release call at all. -/
theorem main_window_failure_skips_quit :
    firstFailure (envFailAt 2) = some 2 ∧
    unwindBelow (envFailAt 2) 2 = [Call.SDL_Quit] ∧
    ∃ r, main (envFailAt 2) = some r ∧ releases r.trace = [] ∧ r.exit = 1 := by
  obtain ⟨e, he⟩ := main_window_failed (envFailAt 2) (by decide) (by decide)
  refine ⟨by decide, by decide, _, he, by simp [releases, Call.relStep], rfl⟩

/-- At every failure point other than step 2 the release calls of the run are
exactly those of steps `k-1, ..., 1`, in that order. -/
theorem main_unwind_except_window (env : Env) (hok : PathOk env) (k : Nat)
    (h : firstFailure env = some k) (hk : k ≠ 2) :
    ∃ r, main env = some r ∧ releases r.trace = unwindBelow env k := by
  rcases firstFailure_cases env with ⟨h1, hf⟩ | ⟨h1, h2, hf⟩ | ⟨h1, h2, h3, hf⟩ |
    ⟨h1, h2, h3, h4, hf⟩ | ⟨h1, h2, h3, h4, h5, hf⟩ | ⟨h1, h2, h3, h4, h5, hf⟩ <;>
    rw [hf] at h <;> simp only [Option.some.injEq, reduceCtorEq] at h <;> subst h
  · refine ⟨_, main_init_failed env h1, ?_⟩
    simp [releases, Call.relStep, unwindBelow, stepsDown]
  · exact absurd rfl hk
  · obtain ⟨e, he⟩ := main_renderer_failed env h1 h2 h3
    refine ⟨_, he, ?_⟩
    simp [releases, Call.relStep, unwindBelow, stepsDown, releaseOf]
  · obtain ⟨b, hb, hfit⟩ := hok ⟨h1, h2, h3⟩
    obtain ⟨e, he⟩ := main_bitmap_failed env h1 h2 h3 h4 b hb hfit
    refine ⟨_, he, ?_⟩
    simp [releases, Call.relStep, unwindBelow, stepsDown, releaseOf, upToLoadBMP]
  · obtain ⟨b, hb, hfit⟩ := hok ⟨h1, h2, h3⟩
    obtain ⟨e, he⟩ := main_texture_failed env h1 h2 h3 h4 h5 b hb hfit
    refine ⟨_, he, ?_⟩
    simp [releases, Call.relStep, unwindBelow, stepsDown, releaseOf, upToLoadBMP]

/-- C2: in every defined run, if step `k` is the first to fail, `main` returns 1,
calls `printf` exactly once, and what it prints is the name of step `k` with
` Error: `, the text `SDL_GetError` returned, and a newline; if all five steps
succeed, nothing is printed and `main` returns 0. -/
theorem main_diagnostic_and_exit (env : Env) (hok : PathOk env) :
    ∃ r, main env = some r ∧
      (∀ k, firstFailure env = some k →
        1 ≤ k ∧ k ≤ 5 ∧ r.exit = 1 ∧
          ∃ e, errorTexts r.trace = [e] ∧
            stdout r.trace = [diagnosticOf k ++ e ++ "\n"]) ∧
      (firstFailure env = none → stdout r.trace = [] ∧ r.exit = 0) := by
  rcases firstFailure_cases env with ⟨h1, hf⟩ | ⟨h1, h2, hf⟩ | ⟨h1, h2, h3, hf⟩ |
    ⟨h1, h2, h3, h4, hf⟩ | ⟨h1, h2, h3, h4, h5, hf⟩ | ⟨h1, h2, h3, h4, h5, hf⟩ <;>
    rw [hf] <;> simp only [Option.some.injEq, reduceCtorEq, false_implies, and_true, true_and,
      forall_eq', true_implies]
  · refine ⟨_, main_init_failed env h1, ?_⟩
    simp [errorTexts, stdout, diagnosticOf]
  · obtain ⟨e, he⟩ := main_window_failed env h1 h2
    refine ⟨_, he, ?_⟩
    simp [errorTexts, stdout, diagnosticOf]
  · obtain ⟨e, he⟩ := main_renderer_failed env h1 h2 h3
    refine ⟨_, he, ?_⟩
    simp [errorTexts, stdout, diagnosticOf]
  · obtain ⟨b, hb, hfit⟩ := hok ⟨h1, h2, h3⟩
    obtain ⟨e, he⟩ := main_bitmap_failed env h1 h2 h3 h4 b hb hfit
    refine ⟨_, he, ?_⟩
    simp [errorTexts, stdout, diagnosticOf, upToLoadBMP]
  · obtain ⟨b, hb, hfit⟩ := hok ⟨h1, h2, h3⟩
    obtain ⟨e, he⟩ := main_texture_failed env h1 h2 h3 h4 h5 b hb hfit
    refine ⟨_, he, ?_⟩
    simp [errorTexts, stdout, diagnosticOf, upToLoadBMP]
  · obtain ⟨b, hb, hfit⟩ := hok ⟨h1, h2, h3⟩
    refine ⟨_, main_all_succeeded env h1 h2 h3 h4 h5 b hb hfit, ?_⟩
    simp [stdout, renderFrame, upToLoadBMP]

/-- C2 at three concrete runs: `SDL_CreateRenderer` failing, `SDL_LoadBMP`
failing after the path is built, and a run with no failure. -/
theorem main_diagnostic_and_exit_witness :
    (PathOk (envFailAt 3) ∧ firstFailure (envFailAt 3) = some 3 ∧
      ∃ r, main (envFailAt 3) = some r ∧ r.exit = 1 ∧
        ∃ e, errorTexts r.trace = [e] ∧ stdout r.trace = [diagnosticOf 3 ++ e ++ "\n"]) ∧
    (PathOk (envFailAt 4) ∧ firstFailure (envFailAt 4) = some 4 ∧
      ∃ r, main (envFailAt 4) = some r ∧ r.exit = 1 ∧
        ∃ e, errorTexts r.trace = [e] ∧ stdout r.trace = [diagnosticOf 4 ++ e ++ "\n"]) ∧
    (PathOk envAllOk ∧ firstFailure envAllOk = none ∧
      ∃ r, main envAllOk = some r ∧ stdout r.trace = [] ∧ r.exit = 0) :=
  ⟨⟨fun _ => ⟨"/opt/hello", rfl, by decide⟩, by decide,
      let ⟨r, hr, hk, _⟩ := main_diagnostic_and_exit (envFailAt 3)
        (fun _ => ⟨"/opt/hello", rfl, by decide⟩)
      ⟨r, hr, (hk 3 (by decide)).2.2⟩⟩,
   ⟨fun _ => ⟨"/opt/hello", rfl, by decide⟩, by decide,
      let ⟨r, hr, hk, _⟩ := main_diagnostic_and_exit (envFailAt 4)
        (fun _ => ⟨"/opt/hello", rfl, by decide⟩)
      ⟨r, hr, (hk 4 (by decide)).2.2⟩⟩,
   ⟨fun _ => ⟨"/opt/hello", rfl, by decide⟩, by decide,
      let ⟨r, hr, _, hn⟩ := main_diagnostic_and_exit envAllOk
        (fun _ => ⟨"/opt/hello", rfl, by decide⟩)
      ⟨r, hr, hn (by decide)⟩⟩⟩

/-- C3, evaluated where it fails: when `SDL_Init` succeeds and `SDL_CreateWindow`
returns `NULL`, the subsystem (step 1) is the one resource acquired in the run
and its release primitive `SDL_Quit` is called zero times. -/
theorem main_window_failure_leaks_subsystem :
    ∃ r, main (envFailAt 2) = some r ∧
      acquiredSteps r.trace = [1] ∧ releaseCount r.trace 1 = 0 := by
  obtain ⟨e, he⟩ := main_window_failed (envFailAt 2) (by decide) (by decide)
  refine ⟨_, he, ?_⟩
  simp [acquiredSteps, Call.acquired, releaseCount, Call.relStep]

/-- In every defined run whose first failure is not step 2, each of the five
release primitives is called once if its resource was acquired and not at all
otherwise. -/
theorem main_release_once_except_window (env : Env) (hok : PathOk env)
    (hw : firstFailure env ≠ some 2) (k : Nat) :
    ∃ r, main env = some r ∧
      releaseCount r.trace k = if k ∈ acquiredSteps r.trace then 1 else 0 := by
  have fin54321 : List.count k [4, 5, 3, 2, 1] = if k ∈ [1, 2, 3, 4, 5] then 1 else 0 := by
    rcases k with _ | _ | _ | _ | _ | _ | k <;> simp [List.count_cons]
  have fin4321 : List.count k [4, 3, 2, 1] = if k ∈ [1, 2, 3, 4] then 1 else 0 := by
    rcases k with _ | _ | _ | _ | _ | k <;> simp [List.count_cons]
  have fin321 : List.count k [3, 2, 1] = if k ∈ [1, 2, 3] then 1 else 0 := by
    rcases k with _ | _ | _ | _ | k <;> simp [List.count_cons]
  have fin21 : List.count k [2, 1] = if k ∈ [1, 2] then 1 else 0 := by
    rcases k with _ | _ | _ | k <;> simp [List.count_cons]
  rcases firstFailure_cases env with ⟨h1, hf⟩ | ⟨h1, h2, hf⟩ | ⟨h1, h2, h3, hf⟩ |
    ⟨h1, h2, h3, h4, hf⟩ | ⟨h1, h2, h3, h4, h5, hf⟩ | ⟨h1, h2, h3, h4, h5, hf⟩
  · refine ⟨_, main_init_failed env h1, ?_⟩
    simp [acquiredSteps, Call.acquired, releaseCount, Call.relStep, h1]
  · exact absurd hf hw
  · obtain ⟨e, he⟩ := main_renderer_failed env h1 h2 h3
    refine ⟨_, he, ?_⟩
    simpa [acquiredSteps, Call.acquired, releaseCount, Call.relStep, h2] using fin21
  · obtain ⟨b, hb, hfit⟩ := hok ⟨h1, h2, h3⟩
    obtain ⟨e, he⟩ := main_bitmap_failed env h1 h2 h3 h4 b hb hfit
    refine ⟨_, he, ?_⟩
    simpa [acquiredSteps, Call.acquired, releaseCount, Call.relStep, h2, h3, upToLoadBMP]
      using fin321
  · obtain ⟨b, hb, hfit⟩ := hok ⟨h1, h2, h3⟩
    obtain ⟨e, he⟩ := main_texture_failed env h1 h2 h3 h4 h5 b hb hfit
    refine ⟨_, he, ?_⟩
    simpa [acquiredSteps, Call.acquired, releaseCount, Call.relStep, h2, h3, h4, upToLoadBMP]
      using fin4321
  · obtain ⟨b, hb, hfit⟩ := hok ⟨h1, h2, h3⟩
    refine ⟨_, main_all_succeeded env h1 h2 h3 h4 h5 b hb hfit, ?_⟩
    simpa [acquiredSteps, Call.acquired, releaseCount, Call.relStep, h2, h3, h4, h5,
      renderFrame, upToLoadBMP] using fin54321

/-- C4: in every defined run, if step `k` is the first to fail, the acquisition
primitives called are those of steps `1, ..., k` in that order, so none of steps
`k+1..5` is called, and no acquisition primitive is called from the first
release call on. -/
theorem main_no_acquisition_past_failure (env : Env) (hok : PathOk env) (k : Nat)
    (h : firstFailure env = some k) :
    ∃ r, main env = some r ∧
      acquisitions r.trace = List.range' 1 k ∧
      (∀ j, k < j → j ∉ acquisitions r.trace) ∧
      acquisitions (fromFirstRelease r.trace) = [] := by
  rcases firstFailure_cases env with ⟨h1, hf⟩ | ⟨h1, h2, hf⟩ | ⟨h1, h2, h3, hf⟩ |
    ⟨h1, h2, h3, h4, hf⟩ | ⟨h1, h2, h3, h4, h5, hf⟩ | ⟨h1, h2, h3, h4, h5, hf⟩ <;>
    rw [hf] at h <;> simp only [Option.some.injEq, reduceCtorEq] at h <;> subst h
  · refine ⟨_, main_init_failed env h1, ?_⟩
    simp [acquisitions, Call.acqStep, fromFirstRelease, Call.relStep, List.range']
    omega
  · obtain ⟨e, he⟩ := main_window_failed env h1 h2
    refine ⟨_, he, ?_⟩
    simp [acquisitions, Call.acqStep, fromFirstRelease, Call.relStep, List.range']
    omega
  · obtain ⟨e, he⟩ := main_renderer_failed env h1 h2 h3
    refine ⟨_, he, ?_⟩
    simp [acquisitions, Call.acqStep, fromFirstRelease, Call.relStep, List.range']
    omega
  · obtain ⟨b, hb, hfit⟩ := hok ⟨h1, h2, h3⟩
    obtain ⟨e, he⟩ := main_bitmap_failed env h1 h2 h3 h4 b hb hfit
    refine ⟨_, he, ?_⟩
    simp [acquisitions, Call.acqStep, fromFirstRelease, Call.relStep, List.range', upToLoadBMP]
    omega
  · obtain ⟨b, hb, hfit⟩ := hok ⟨h1, h2, h3⟩
    obtain ⟨e, he⟩ := main_texture_failed env h1 h2 h3 h4 h5 b hb hfit
    refine ⟨_, he, ?_⟩
    simp [acquisitions, Call.acqStep, fromFirstRelease, Call.relStep, List.range', upToLoadBMP]
    omega

/-- C4 at a concrete run: `SDL_LoadBMP` is the first step to fail. -/
theorem main_no_acquisition_past_failure_witness :
    PathOk (envFailAt 4) ∧ firstFailure (envFailAt 4) = some 4 ∧
    ∃ r, main (envFailAt 4) = some r ∧
      acquisitions r.trace = List.range' 1 4 ∧
      (∀ j, 4 < j → j ∉ acquisitions r.trace) ∧
      acquisitions (fromFirstRelease r.trace) = [] :=
  ⟨fun _ => ⟨"/opt/hello", rfl, by decide⟩, by decide,
   main_no_acquisition_past_failure (envFailAt 4) (fun _ => ⟨"/opt/hello", rfl, by decide⟩) 4
     (by decide)⟩

/-- C5 as stated fails: in a run where all five steps succeed the acquisitions
are steps 1 to 5 in order, yet the release calls are not `SDL_DestroyTexture`,
`SDL_FreeSurface`, `SDL_DestroyRenderer`, `SDL_DestroyWindow`, `SDL_Quit`, and
the released steps are not the reverse of the acquired ones. -/
theorem main_success_releases_not_reversed :
    firstFailure envAllOk = none ∧
    ∃ r, main envAllOk = some r ∧
      acquisitions r.trace = [1, 2, 3, 4, 5] ∧
      releases r.trace ≠
        [ Call.SDL_DestroyTexture 14, Call.SDL_FreeSurface 13, Call.SDL_DestroyRenderer 12,
          Call.SDL_DestroyWindow 11, Call.SDL_Quit ] ∧
      (releases r.trace).filterMap Call.relStep ≠ (acquisitions r.trace).reverse := by
  refine ⟨by decide, _, main_all_succeeded envAllOk (by decide) (by decide) (by decide)
    (by decide) (by decide) "/opt/hello" rfl (by decide), ?_, ?_, ?_⟩ <;>
    simp [acquisitions, Call.acqStep, releases, Call.relStep, renderFrame, envAllOk,
      upToLoadBMP]

/-- C5 amended: in every defined run in which all five steps succeed, the
acquisitions are steps 1 to 5 in order and the release calls are
`SDL_FreeSurface`, `SDL_DestroyTexture`, `SDL_DestroyRenderer`,
`SDL_DestroyWindow`, `SDL_Quit`, each on the handle its step returned: steps
4, 5, 3, 2, 1.  The trace is: calls that acquire steps 1 to 4 and release or
render nothing; then `SDL_CreateTextureFromSurface` with `SDL_FreeSurface` as
the very next call; then the three frames of the rendering loop; then
`SDL_DestroyTexture`, `SDL_DestroyRenderer`, `SDL_DestroyWindow`, `SDL_Quit`. -/
theorem main_success_release_order (env : Env) (hok : PathOk env)
    (h : firstFailure env = none) :
    ∃ r, main env = some r ∧
      acquisitions r.trace = [1, 2, 3, 4, 5] ∧
      releases r.trace =
        [ Call.SDL_FreeSurface env.SDL_LoadBMP,
          Call.SDL_DestroyTexture env.SDL_CreateTextureFromSurface,
          Call.SDL_DestroyRenderer env.SDL_CreateRenderer,
          Call.SDL_DestroyWindow env.SDL_CreateWindow,
          Call.SDL_Quit ] ∧
      (releases r.trace).filterMap Call.relStep = [4, 5, 3, 2, 1] ∧
      ∃ before,
        r.trace = before ++
          [ Call.SDL_CreateTextureFromSurface env.SDL_CreateRenderer env.SDL_LoadBMP
              env.SDL_CreateTextureFromSurface,
            Call.SDL_FreeSurface env.SDL_LoadBMP ] ++
          (List.replicate 3
            (renderFrame env.SDL_CreateRenderer env.SDL_CreateTextureFromSurface)).flatten ++
          [ Call.SDL_DestroyTexture env.SDL_CreateTextureFromSurface,
            Call.SDL_DestroyRenderer env.SDL_CreateRenderer,
            Call.SDL_DestroyWindow env.SDL_CreateWindow,
            Call.SDL_Quit ] ∧
        acquisitions before = [1, 2, 3, 4] ∧
        releases before = [] ∧
        before.filter Call.isRenderOrDelay = [] := by
  rcases firstFailure_cases env with ⟨h1, hf⟩ | ⟨h1, h2, hf⟩ | ⟨h1, h2, h3, hf⟩ |
    ⟨h1, h2, h3, h4, hf⟩ | ⟨h1, h2, h3, h4, h5, hf⟩ | ⟨h1, h2, h3, h4, h5, hf⟩ <;>
    rw [hf] at h <;> simp only [reduceCtorEq] at h
  obtain ⟨b, hb, hfit⟩ := hok ⟨h1, h2, h3⟩
  refine ⟨_, main_all_succeeded env h1 h2 h3 h4 h5 b hb hfit, ?_, ?_, ?_,
    upToLoadBMP env b env.SDL_LoadBMP, ?_, ?_, ?_, ?_⟩
  · simp [acquisitions, Call.acqStep, renderFrame, upToLoadBMP]
  · simp [releases, Call.relStep, renderFrame, upToLoadBMP]
  · simp [releases, Call.relStep, renderFrame, upToLoadBMP]
  · simp [List.replicate, List.append_assoc]
  · simp [acquisitions, Call.acqStep, upToLoadBMP]
  · simp [releases, Call.relStep, upToLoadBMP]
  · simp [Call.isRenderOrDelay, upToLoadBMP]

/-- C5 amended, at a concrete run in which all five steps succeed. -/
theorem main_success_release_order_witness :
    PathOk envAllOk ∧ firstFailure envAllOk = none ∧
    ∃ r, main envAllOk = some r ∧
      releases r.trace =
        [ Call.SDL_FreeSurface 13, Call.SDL_DestroyTexture 14, Call.SDL_DestroyRenderer 12,
          Call.SDL_DestroyWindow 11, Call.SDL_Quit ] :=
  ⟨fun _ => ⟨"/opt/hello", rfl, by decide⟩, by decide,
   let ⟨r, hr, _, hrel, _⟩ := main_success_release_order envAllOk
     (fun _ => ⟨"/opt/hello", rfl, by decide⟩) (by decide)
   ⟨r, hr, hrel⟩⟩

/-- C6: in every defined run of `main`, each window, renderer, surface or
texture handle passed to a library call was returned non-`NULL` by an earlier
call of the trace and is released by no earlier call of the trace.  In
particular `SDL_CreateTextureFromSurface` is not called from `SDL_FreeSurface`
on, and no rendering call is made from the first `SDL_DestroyTexture` or
`SDL_DestroyRenderer` on. -/
theorem main_handles_live (env : Env) (hok : PathOk env) :
    ∃ r, main env = some r ∧
      HandlesLive r.trace ∧
      (r.trace.dropWhile (fun c => c.relStep ≠ some 4)).filter
          (fun c => c.acqStep = some 5) = [] ∧
      (r.trace.dropWhile (fun c => c.relStep ≠ some 5 ∧ c.relStep ≠ some 3)).filter
          Call.isRenderOrDelay = [] := by
  rcases firstFailure_cases env with ⟨h1, hf⟩ | ⟨h1, h2, hf⟩ | ⟨h1, h2, h3, hf⟩ |
    ⟨h1, h2, h3, h4, hf⟩ | ⟨h1, h2, h3, h4, h5, hf⟩ | ⟨h1, h2, h3, h4, h5, hf⟩
  · refine ⟨_, main_init_failed env h1, HandlesLive_of_liveCheck _ ?_, ?_⟩
    · simp [liveCheck, Call.uses, Call.yields, Call.frees]
    · simp [Call.relStep, Call.acqStep, Call.isRenderOrDelay, List.dropWhile]
  · obtain ⟨e, he⟩ := main_window_failed env h1 h2
    refine ⟨_, he, HandlesLive_of_liveCheck _ ?_, ?_⟩
    · simp [liveCheck, Call.uses, Call.yields, Call.frees]
    · simp [Call.relStep, Call.acqStep, Call.isRenderOrDelay, List.dropWhile]
  · obtain ⟨e, he⟩ := main_renderer_failed env h1 h2 h3
    refine ⟨_, he, HandlesLive_of_liveCheck _ ?_, ?_⟩
    · simp [liveCheck, Call.uses, Call.yields, Call.frees, h2]
    · simp [Call.relStep, Call.acqStep, Call.isRenderOrDelay, List.dropWhile]
  · obtain ⟨b, hb, hfit⟩ := hok ⟨h1, h2, h3⟩
    obtain ⟨e, he⟩ := main_bitmap_failed env h1 h2 h3 h4 b hb hfit
    refine ⟨_, he, HandlesLive_of_liveCheck _ ?_, ?_⟩
    · simp [liveCheck, Call.uses, Call.yields, Call.frees, h2, h3, upToLoadBMP]
    · simp [Call.relStep, Call.acqStep, Call.isRenderOrDelay, List.dropWhile, upToLoadBMP]
  · obtain ⟨b, hb, hfit⟩ := hok ⟨h1, h2, h3⟩
    obtain ⟨e, he⟩ := main_texture_failed env h1 h2 h3 h4 h5 b hb hfit
    refine ⟨_, he, HandlesLive_of_liveCheck _ ?_, ?_⟩
    · simp [liveCheck, Call.uses, Call.yields, Call.frees, h2, h3, h4, upToLoadBMP]
    · simp [Call.relStep, Call.acqStep, Call.isRenderOrDelay, List.dropWhile, upToLoadBMP]
  · obtain ⟨b, hb, hfit⟩ := hok ⟨h1, h2, h3⟩
    refine ⟨_, main_all_succeeded env h1 h2 h3 h4 h5 b hb hfit,
      HandlesLive_of_liveCheck _ ?_, ?_⟩
    · simp [liveCheck, Call.uses, Call.yields, Call.frees, h2, h3, h4, h5, renderFrame,
        upToLoadBMP]
    · simp [Call.relStep, Call.acqStep, Call.isRenderOrDelay, List.dropWhile, renderFrame,
        upToLoadBMP]

/-- C6 at a concrete run in which all five steps succeed. -/
theorem main_handles_live_witness :
    PathOk envAllOk ∧ ∃ r, main envAllOk = some r ∧ HandlesLive r.trace :=
  ⟨fun _ => ⟨"/opt/hello", rfl, by decide⟩,
   let ⟨r, hr, hl, _⟩ := main_handles_live envAllOk (fun _ => ⟨"/opt/hello", rfl, by decide⟩)
   ⟨r, hr, hl⟩⟩

/-- The lifetime property is not vacuous: it rejects a trace that frees a
surface and then passes it on, and a trace that uses a handle never handed out. -/
theorem HandlesLive_rejects :
    ¬ HandlesLive [ Call.SDL_LoadBMP "a.bmp" 13, Call.SDL_FreeSurface 13,
                    Call.SDL_CreateTextureFromSurface 12 13 14 ] ∧
    ¬ HandlesLive [ Call.SDL_DestroyWindow 11 ] := by
  constructor
  · intro hl
    have key := hl [Call.SDL_LoadBMP "a.bmp" 13, Call.SDL_FreeSurface 13]
      (Call.SDL_CreateTextureFromSurface 12 13 14) [] rfl ⟨Kind.surface, 13⟩
      (by simp [Call.uses])
    exact key.2 (Call.SDL_FreeSurface 13) (by simp) rfl
  · intro hl
    have key := hl [] (Call.SDL_DestroyWindow 11) [] rfl ⟨Kind.window, 11⟩
      (by simp [Call.uses])
    obtain ⟨a, ha, _⟩ := key.1
    simp at ha

/-- C7: in every defined run, when `SDL_CreateRenderer` is the first step to
fail, `SDL_LoadBMP` and `SDL_CreateTextureFromSurface` are never called, the
release calls are `SDL_DestroyWindow` then `SDL_Quit`, the one line printed is
`SDL_CreateRenderer Error: ` with the error text, and `main` returns 1; when
the first failure is `SDL_LoadBMP` or `SDL_CreateTextureFromSurface` the release
calls are again those of all earlier steps in reverse order, ending in
`SDL_Quit`, with that step's own line printed and 1 returned. -/
theorem main_unwind_from_renderer_on (env : Env) (hok : PathOk env) :
    ∃ r, main env = some r ∧
      (firstFailure env = some 3 →
        acquisitions r.trace = [1, 2, 3] ∧
        releases r.trace =
          [Call.SDL_DestroyWindow env.SDL_CreateWindow, Call.SDL_Quit] ∧
        (∃ e, errorTexts r.trace = [e] ∧
          stdout r.trace = ["SDL_CreateRenderer Error: " ++ e ++ "\n"]) ∧
        r.exit = 1) ∧
      (firstFailure env = some 4 →
        acquisitions r.trace = [1, 2, 3, 4] ∧
        releases r.trace =
          [Call.SDL_DestroyRenderer env.SDL_CreateRenderer,
           Call.SDL_DestroyWindow env.SDL_CreateWindow, Call.SDL_Quit] ∧
        (∃ e, errorTexts r.trace = [e] ∧
          stdout r.trace = ["SDL_LoadBMP Error: " ++ e ++ "\n"]) ∧
        r.exit = 1) ∧
      (firstFailure env = some 5 →
        acquisitions r.trace = [1, 2, 3, 4, 5] ∧
        releases r.trace =
          [Call.SDL_FreeSurface env.SDL_LoadBMP,
           Call.SDL_DestroyRenderer env.SDL_CreateRenderer,
           Call.SDL_DestroyWindow env.SDL_CreateWindow, Call.SDL_Quit] ∧
        (∃ e, errorTexts r.trace = [e] ∧
          stdout r.trace = ["SDL_CreateTextureFromSurface Error: " ++ e ++ "\n"]) ∧
        r.exit = 1) := by
  rcases firstFailure_cases env with ⟨h1, hf⟩ | ⟨h1, h2, hf⟩ | ⟨h1, h2, h3, hf⟩ |
    ⟨h1, h2, h3, h4, hf⟩ | ⟨h1, h2, h3, h4, h5, hf⟩ | ⟨h1, h2, h3, h4, h5, hf⟩ <;>
    rw [hf] <;> simp only [Option.some.injEq, reduceCtorEq, false_implies, and_true, true_and,
      OfNat.ofNat_eq_ofNat, Nat.reduceEqDiff, true_implies]
  · exact ⟨_, main_init_failed env h1⟩
  · obtain ⟨e, he⟩ := main_window_failed env h1 h2
    exact ⟨_, he⟩
  · obtain ⟨e, he⟩ := main_renderer_failed env h1 h2 h3
    refine ⟨_, he, ?_⟩
    simp [acquisitions, Call.acqStep, releases, Call.relStep, errorTexts, stdout]
  · obtain ⟨b, hb, hfit⟩ := hok ⟨h1, h2, h3⟩
    obtain ⟨e, he⟩ := main_bitmap_failed env h1 h2 h3 h4 b hb hfit
    refine ⟨_, he, ?_⟩
    simp [acquisitions, Call.acqStep, releases, Call.relStep, errorTexts, stdout, upToLoadBMP]
  · obtain ⟨b, hb, hfit⟩ := hok ⟨h1, h2, h3⟩
    obtain ⟨e, he⟩ := main_texture_failed env h1 h2 h3 h4 h5 b hb hfit
    refine ⟨_, he, ?_⟩
    simp [acquisitions, Call.acqStep, releases, Call.relStep, errorTexts, stdout, upToLoadBMP]
  · obtain ⟨b, hb, hfit⟩ := hok ⟨h1, h2, h3⟩
    exact ⟨_, main_all_succeeded env h1 h2 h3 h4 h5 b hb hfit⟩

/-- C7 at three concrete runs, failing at steps 3, 4 and 5. -/
theorem main_unwind_from_renderer_on_witness :
    (PathOk (envFailAt 3) ∧ firstFailure (envFailAt 3) = some 3 ∧
      ∃ r, main (envFailAt 3) = some r ∧
        releases r.trace = [Call.SDL_DestroyWindow 11, Call.SDL_Quit]) ∧
    (PathOk (envFailAt 4) ∧ firstFailure (envFailAt 4) = some 4 ∧
      ∃ r, main (envFailAt 4) = some r ∧
        releases r.trace =
          [Call.SDL_DestroyRenderer 12, Call.SDL_DestroyWindow 11, Call.SDL_Quit]) ∧
    (PathOk (envFailAt 5) ∧ firstFailure (envFailAt 5) = some 5 ∧
      ∃ r, main (envFailAt 5) = some r ∧
        releases r.trace =
          [Call.SDL_FreeSurface 13, Call.SDL_DestroyRenderer 12, Call.SDL_DestroyWindow 11,
           Call.SDL_Quit]) :=
  ⟨⟨fun _ => ⟨"/opt/hello", rfl, by decide⟩, by decide,
      let ⟨r, hr, h3, _⟩ := main_unwind_from_renderer_on (envFailAt 3)
        (fun _ => ⟨"/opt/hello", rfl, by decide⟩)
      ⟨r, hr, (h3 (by decide)).2.1⟩⟩,
   ⟨fun _ => ⟨"/opt/hello", rfl, by decide⟩, by decide,
      let ⟨r, hr, _, h4, _⟩ := main_unwind_from_renderer_on (envFailAt 4)
        (fun _ => ⟨"/opt/hello", rfl, by decide⟩)
      ⟨r, hr, (h4 (by decide)).2.1⟩⟩,
   ⟨fun _ => ⟨"/opt/hello", rfl, by decide⟩, by decide,
      let ⟨r, hr, _, _, h5⟩ := main_unwind_from_renderer_on (envFailAt 5)
        (fun _ => ⟨"/opt/hello", rfl, by decide⟩)
      ⟨r, hr, (h5 (by decide)).2.1⟩⟩⟩

/-- C8: in every defined run, when all five steps succeed, the calls between
`SDL_FreeSurface` and `SDL_DestroyTexture` are exactly three repetitions of
`SDL_RenderClear(ren)`, `SDL_RenderCopy(ren, tex, NULL, NULL)`,
`SDL_RenderPresent(ren)`, `SDL_Delay(1000)`, these are all the rendering and
delay calls of the run, and the delays add up to 3000 ms; when a step fails,
the run contains no rendering call and no delay. -/
theorem main_render_loop (env : Env) (hok : PathOk env) :
    ∃ r, main env = some r ∧
      (firstFailure env = none →
        betweenSurfaceAndTexture r.trace =
          (List.replicate 3
            [ Call.SDL_RenderClear env.SDL_CreateRenderer,
              Call.SDL_RenderCopy env.SDL_CreateRenderer env.SDL_CreateTextureFromSurface 0 0,
              Call.SDL_RenderPresent env.SDL_CreateRenderer,
              Call.SDL_Delay 1000 ]).flatten ∧
        r.trace.filter Call.isRenderOrDelay = betweenSurfaceAndTexture r.trace ∧
        totalDelay r.trace = 3000) ∧
      (firstFailure env ≠ none → r.trace.filter Call.isRenderOrDelay = []) := by
  rcases firstFailure_cases env with ⟨h1, hf⟩ | ⟨h1, h2, hf⟩ | ⟨h1, h2, h3, hf⟩ |
    ⟨h1, h2, h3, h4, hf⟩ | ⟨h1, h2, h3, h4, h5, hf⟩ | ⟨h1, h2, h3, h4, h5, hf⟩ <;>
    rw [hf] <;> simp only [reduceCtorEq, false_implies, true_and, and_true, ne_eq,
      not_false_eq_true, true_implies, not_true_eq_false]
  · refine ⟨_, main_init_failed env h1, ?_⟩
    simp [Call.isRenderOrDelay]
  · obtain ⟨e, he⟩ := main_window_failed env h1 h2
    refine ⟨_, he, ?_⟩
    simp [Call.isRenderOrDelay]
  · obtain ⟨e, he⟩ := main_renderer_failed env h1 h2 h3
    refine ⟨_, he, ?_⟩
    simp [Call.isRenderOrDelay]
  · obtain ⟨b, hb, hfit⟩ := hok ⟨h1, h2, h3⟩
    obtain ⟨e, he⟩ := main_bitmap_failed env h1 h2 h3 h4 b hb hfit
    refine ⟨_, he, ?_⟩
    simp [Call.isRenderOrDelay, upToLoadBMP]
  · obtain ⟨b, hb, hfit⟩ := hok ⟨h1, h2, h3⟩
    obtain ⟨e, he⟩ := main_texture_failed env h1 h2 h3 h4 h5 b hb hfit
    refine ⟨_, he, ?_⟩
    simp [Call.isRenderOrDelay, upToLoadBMP]
  · obtain ⟨b, hb, hfit⟩ := hok ⟨h1, h2, h3⟩
    refine ⟨_, main_all_succeeded env h1 h2 h3 h4 h5 b hb hfit, ?_⟩
    simp [betweenSurfaceAndTexture, Call.relStep, Call.isRenderOrDelay, totalDelay, Call.delay,
      renderFrame, List.dropWhile, List.takeWhile, List.replicate, upToLoadBMP]

/-- C8 at a concrete run in which all steps succeed and one in which
`SDL_CreateTextureFromSurface` fails. -/
theorem main_render_loop_witness :
    (PathOk envAllOk ∧ firstFailure envAllOk = none ∧
      ∃ r, main envAllOk = some r ∧ totalDelay r.trace = 3000) ∧
    (PathOk (envFailAt 5) ∧ firstFailure (envFailAt 5) ≠ none ∧
      ∃ r, main (envFailAt 5) = some r ∧ r.trace.filter Call.isRenderOrDelay = []) :=
  ⟨⟨fun _ => ⟨"/opt/hello", rfl, by decide⟩, by decide,
      let ⟨r, hr, hs, _⟩ := main_render_loop envAllOk
        (fun _ => ⟨"/opt/hello", rfl, by decide⟩)
      ⟨r, hr, (hs (by decide)).2.2⟩⟩,
   ⟨fun _ => ⟨"/opt/hello", rfl, by decide⟩, by decide,
      let ⟨r, hr, _, hf⟩ := main_render_loop (envFailAt 5)
        (fun _ => ⟨"/opt/hello", rfl, by decide⟩)
      ⟨r, hr, hf (by decide)⟩⟩⟩

end Hello

namespace Window

/-! ## The widget of `window.cpp` -/

/-- The signals declared by the class. -/
inductive Signal where
  | counterReached
  deriving DecidableEq, Repr

/-- The part of a `Window` object the slot reads or writes: the field
`m_counter` and the text shown on `m_button`. -/
structure State where
  m_counter : Int
  buttonText : String
  deriving DecidableEq, Repr

/-- A value of C++ type `int` (32 bit, two's complement) holding `z` after
wrap-around.  C++ leaves signed overflow undefined; the model wraps, as two's
complement targets do. -/
def wrapInt (z : Int) : Int :=
  (z + 2 ^ 31) % 2 ^ 32 - 2 ^ 31

set_option linter.dupNamespace false in
/-- The constructor `Window::Window`: the button is created with the text
`Hello World` and the counter is set to 0. -/
def Window : State :=
  { m_counter := 0, buttonText := "Hello World" }

/-- The slot `Window::slotButtonClicked` as a step function: the state after the
call and the signals emitted during it. -/
def slotButtonClicked (s : State) (checked : Bool) : State × List Signal :=
  let s := if checked then { s with buttonText := "Checked" }
           else { s with buttonText := "Hello World" }
  let s := { s with m_counter := wrapInt (s.m_counter + 1) }
  if s.m_counter = 10 then (s, [Signal.counterReached]) else (s, [])

/-- A sequence of clicks, one `checked` flag per click: the final state and,
click by click, the signals emitted. -/
def clicks : State → List Bool → State × List (List Signal)
  | s, [] => (s, [])
  | s, checked :: rest =>
      let r := slotButtonClicked s checked
      let rs := clicks r.1 rest
      (rs.1, r.2 :: rs.2)

/-! ## Properties of the slot -/

theorem wrapInt_of_fits (z : Int) (h0 : 0 ≤ z) (h1 : z < 2 ^ 31) : wrapInt z = z := by
  unfold wrapInt
  norm_num at h1 ⊢
  omega

theorem slotButtonClicked_counter (s : State) (checked : Bool) :
    (slotButtonClicked s checked).1.m_counter = wrapInt (s.m_counter + 1) := by
  unfold slotButtonClicked
  cases checked <;> simp <;> split <;> rfl

theorem slotButtonClicked_signals (s : State) (checked : Bool) :
    (slotButtonClicked s checked).2 =
      if wrapInt (s.m_counter + 1) = 10 then [Signal.counterReached] else [] := by
  unfold slotButtonClicked
  cases checked <;> simp <;> split <;> simp_all

theorem clicks_from (flags : List Bool) :
    ∀ s : State, 0 ≤ s.m_counter → s.m_counter + flags.length < 2 ^ 31 →
      (clicks s flags).1.m_counter = s.m_counter + flags.length ∧
      (clicks s flags).2 =
        (List.range flags.length).map
          (fun i => if s.m_counter + ((i + 1 : Nat) : Int) = 10
            then [Signal.counterReached] else []) := by
  induction flags with
  | nil => intro s _ _; simp [clicks]
  | cons b rest ih =>
      intro s h0 hb
      have hlen : ((b :: rest).length : Int) = (rest.length : Int) + 1 := by simp
      rw [hlen] at hb
      have hw : wrapInt (s.m_counter + 1) = s.m_counter + 1 :=
        wrapInt_of_fits _ (by omega) (by omega)
      have hc := slotButtonClicked_counter s b
      have hs := slotButtonClicked_signals s b
      rw [hw] at hc hs
      obtain ⟨ih1, ih2⟩ := ih (slotButtonClicked s b).1 (by rw [hc]; omega) (by rw [hc]; omega)
      refine ⟨?_, ?_⟩
      · simp only [clicks, ih1, hc, hlen]
        omega
      · simp only [clicks, ih2, hs, hc, List.length_cons, List.range_succ_eq_map, List.map_cons,
          List.map_map]
        congr 1
        apply List.map_congr_left
        intro i _
        simp only [Function.comp, Nat.succ_eq_add_one, Nat.cast_add, Nat.cast_one]
        have e : s.m_counter + 1 + ((i : Int) + 1) = s.m_counter + ((i : Int) + 1 + 1) := by
          omega
        rw [e]

/-- The signals of `n` clicks on a fresh widget: nothing, except
`counterReached` at the tenth click. -/
def expectedSignals (n : Nat) : List (List Signal) :=
  (List.range n).map (fun i => if i + 1 = 10 then [Signal.counterReached] else [])

theorem expectedSignals_count (n : Nat) :
    (expectedSignals n).count [Signal.counterReached] = if 10 ≤ n then 1 else 0 := by
  have hc : (expectedSignals n).count [Signal.counterReached] = (List.range n).count 9 := by
    unfold expectedSignals
    rw [List.count_eq_countP, List.countP_map, List.count_eq_countP]
    apply List.countP_congr
    intro i _
    simp only [Function.comp, beq_iff_eq]
    constructor
    · intro h
      split at h
      · omega
      · simp at h
    · intro h
      simp [h]
  rw [hc]
  by_cases hn : 10 ≤ n
  · rw [if_pos hn]
    exact List.count_eq_one_of_mem (List.nodup_range n) (List.mem_range.mpr (by omega))
  · rw [if_neg hn]
    exact List.count_eq_zero_of_not_mem (by simp; omega)

/-- C9: starting from the state the constructor sets up, after `n < 2^31` clicks
with any `checked` flags the counter is `n`; the signals of the `i`-th click are
`counterReached` if `i = 10` and nothing otherwise; so `counterReached` is
emitted at most once, not at all in fewer than 10 clicks, and the signals are
the same for any other flags of the same length. -/
theorem clicks_counter_and_signal (flags : List Bool) (hn : flags.length < 2 ^ 31) :
    (clicks Window flags).1.m_counter = flags.length ∧
    (clicks Window flags).2 = expectedSignals flags.length ∧
    (∀ i, 1 ≤ i → i ≤ flags.length →
      ((clicks Window flags).2[i - 1]? = some [Signal.counterReached] ↔ i = 10)) ∧
    (clicks Window flags).2.count [Signal.counterReached] ≤ 1 ∧
    (flags.length < 10 → (clicks Window flags).2.count [Signal.counterReached] = 0) ∧
    (∀ other : List Bool, other.length = flags.length →
      (clicks Window other).2 = (clicks Window flags).2) := by
  have hsig : ∀ l : List Bool, l.length < 2 ^ 31 →
      (clicks Window l).1.m_counter = l.length ∧ (clicks Window l).2 = expectedSignals l.length := by
    intro l hl
    have key := clicks_from l Window (by decide) (by
      have : ((l.length : Nat) : Int) < 2 ^ 31 := by exact_mod_cast hl
      simpa [Window] using this)
    refine ⟨by simpa [Window] using key.1, ?_⟩
    rw [key.2]
    unfold expectedSignals
    apply List.map_congr_left
    intro i _
    have e : (Window.m_counter + ((i + 1 : Nat) : Int) = 10) ↔ (i + 1 = 10) := by
      simp only [Window, zero_add]
      constructor
      · intro h; exact_mod_cast h
      · intro h; exact_mod_cast h
    simp only [e]
  obtain ⟨h1, h2⟩ := hsig flags hn
  refine ⟨h1, h2, ?_, ?_, ?_, ?_⟩
  · intro i hi1 hi2
    rw [h2]
    unfold expectedSignals
    have hlt : i - 1 < flags.length := by omega
    rw [List.getElem?_map, List.getElem?_range hlt]
    have hsub : i - 1 + 1 = i := by omega
    simp only [Option.map_some', hsub, Option.some.injEq]
    constructor
    · intro h
      by_contra hne
      simp [hne] at h
    · intro h
      simp [h]
  · rw [h2, expectedSignals_count]
    split <;> omega
  · intro hlt
    rw [h2, expectedSignals_count, if_neg (by omega)]
  · intro other ho
    rw [h2, (hsig other (by rw [ho]; exact hn)).2, ho]

/-- C9 at a concrete sequence of twelve clicks with mixed flags. -/
theorem clicks_counter_and_signal_witness :
    (clicks Window [true, false, true, true, false, false, true, false, true, false, true,
      true]).1.m_counter = 12 ∧
    (clicks Window [true, false, true, true, false, false, true, false, true, false, true,
      true]).2.count [Signal.counterReached] ≤ 1 :=
  ⟨(clicks_counter_and_signal [true, false, true, true, false, false, true, false, true, false,
      true, true] (by norm_num)).1,
   (clicks_counter_and_signal [true, false, true, true, false, false, true, false, true, false,
      true, true] (by norm_num)).2.2.2.1⟩

/-- C10: after a click the button text is `Checked` if `checked` is true and
`Hello World`, the text the constructor gives the button, if it is false,
whatever the state before; and the counter after the click is the same for both
values of the flag. -/
theorem slotButtonClicked_label (s : State) (checked : Bool) :
    (slotButtonClicked s checked).1.buttonText =
      (if checked then "Checked" else "Hello World") ∧
    Window.buttonText = "Hello World" ∧
    (∀ s2 : State, (slotButtonClicked s2 checked).1.buttonText =
      (slotButtonClicked s checked).1.buttonText) ∧
    (slotButtonClicked s checked).1.m_counter = wrapInt (s.m_counter + 1) ∧
    (slotButtonClicked s true).1.m_counter = (slotButtonClicked s false).1.m_counter ∧
    (slotButtonClicked s true).2 = (slotButtonClicked s false).2 := by
  have hlabel : ∀ (t : State) (c : Bool), (slotButtonClicked t c).1.buttonText =
      (if c then "Checked" else "Hello World") := by
    intro t c
    unfold slotButtonClicked
    cases c <;> simp <;> split <;> rfl
  refine ⟨hlabel s checked, rfl, ?_, slotButtonClicked_counter s checked, ?_, ?_⟩
  · intro s2
    rw [hlabel, hlabel]
  · rw [slotButtonClicked_counter, slotButtonClicked_counter]
  · rw [slotButtonClicked_signals, slotButtonClicked_signals]

end Window
